import Mathlib

/-!
Verification of the mospolytech-bot support-bot core: the ticket workflow
(`app/services/ticket_service.py`, `app/handlers/tickets.py`,
`app/keyboards/tickets.py`), the FAQ/document fuzzy-search pipeline
(`app/services/faq_service.py`, `app/services/document_service.py`), the
analytics dashboard summary (`app/services/analytics_service.py`), and the
notification dispatcher (`app/services/notification_service.py`), shallowly
embedded in Lean. Database rows become structures, the session becomes an
explicit store value, and `datetime.utcnow()` becomes a `now : Nat` clock
parameter.
-/

namespace MospolytechBot

/-- Ticket lifecycle states, from the `TicketStatus` enum in
`app/database/models.py`. -/
inductive TicketStatus where
  | OPEN
  | IN_PROGRESS
  | WAITING
  | RESOLVED
  | CLOSED
deriving DecidableEq, Repr

/-- The string value of each status, as declared in the Python enum. -/
def TicketStatus.value : TicketStatus → String
  | .OPEN => "open"
  | .IN_PROGRESS => "in_progress"
  | .WAITING => "waiting"
  | .RESOLVED => "resolved"
  | .CLOSED => "closed"

/-- A `tickets` row (`Ticket` model in `app/database/models.py`). -/
structure Ticket where
  id : Nat
  ticket_number : String
  user_id : Nat
  assigned_to_id : Option Nat
  subject : String
  description : String
  status : TicketStatus
  priority : Nat
  category : Option String
  is_anonymous : Bool
  resolved_at : Option Nat
deriving DecidableEq, Repr

/-- A `ticket_messages` row (`TicketMessage` model in
`app/database/models.py`). -/
structure TicketMessage where
  ticket_id : Nat
  user_id : Nat
  message : String
  is_from_staff : Bool
  is_internal : Bool
deriving DecidableEq, Repr

/-- The ticket-related tables of the relational store. -/
structure TicketStore where
  tickets : List Ticket
  messages : List TicketMessage
deriving DecidableEq, Repr

/-- `select(Ticket).where(Ticket.id == ticket_id)` + `scalar_one_or_none()`:
first ticket with the given id, if any. -/
def TicketStore.findTicket (s : TicketStore) (ticket_id : Nat) : Option Ticket :=
  s.tickets.find? (fun t => t.id == ticket_id)

/-- `TicketService.create_ticket`: inserts a new ticket in `OPEN` state and a
first message carrying the description, authored by the requester with
`is_from_staff=False`. The autoincrement id is modelled as max existing id + 1;
the generated ticket number (time prefix + random suffix) is passed in because
its randomness plays no role in the claims. -/
def TicketService.create_ticket (s : TicketStore) (ticket_number : String)
    (user_id : Nat) (subject description : String) (category : Option String)
    (priority : Nat) (is_anonymous : Bool) : Ticket × TicketStore :=
  let newId := (s.tickets.map (fun t => t.id)).foldr max 0 + 1
  let ticket : Ticket :=
    { id := newId
      ticket_number := ticket_number
      user_id := user_id
      assigned_to_id := none
      subject := subject
      description := description
      status := .OPEN
      priority := priority
      category := category
      is_anonymous := is_anonymous
      resolved_at := none }
  let message : TicketMessage :=
    { ticket_id := newId
      user_id := user_id
      message := description
      is_from_staff := false
      is_internal := false }
  (ticket,
   { tickets := s.tickets ++ [ticket], messages := s.messages ++ [message] })

/-- The body of the system message recorded by `TicketService.update_status`:
old status, arrow, new status, plus the optional comment. -/
def statusMessageText (old_status new_status : TicketStatus)
    (comment : Option String) : String :=
  let base := "Статус изменён: " ++ old_status.value ++ " → " ++ new_status.value
  match comment with
  | some c => base ++ "\n\nКомментарий: " ++ c
  | none => base

/-- `TicketService.update_status`: looks the ticket up; on a miss returns
`None` and leaves the store untouched; otherwise sets the requested status
unconditionally (no transition table is consulted), stamps `resolved_at` with
the current time exactly when the new status is `RESOLVED` or `CLOSED`, and
appends one staff-flagged system message narrating the transition. -/
def TicketService.update_status (s : TicketStore) (ticket_id : Nat)
    (new_status : TicketStatus) (user_id : Nat) (comment : Option String)
    (now : Nat) : Option Ticket × TicketStore :=
  match s.findTicket ticket_id with
  | none => (none, s)
  | some t =>
    let t' : Ticket :=
      { t with
        status := new_status
        resolved_at :=
          if new_status = .RESOLVED ∨ new_status = .CLOSED then some now
          else t.resolved_at }
    let message : TicketMessage :=
      { ticket_id := t.id
        user_id := user_id
        message := statusMessageText t.status new_status comment
        is_from_staff := true
        is_internal := false }
    (some t',
     { tickets := s.tickets.map (fun u => if u.id == ticket_id then t' else u)
       messages := s.messages ++ [message] })

/-- `TicketService.assign_ticket`: on a hit sets the assignee and
auto-advances `OPEN` to `IN_PROGRESS`; on a miss returns `None` and changes
nothing. -/
def TicketService.assign_ticket (s : TicketStore)
    (ticket_id assigned_to_id : Nat) : Option Ticket × TicketStore :=
  match s.findTicket ticket_id with
  | none => (none, s)
  | some t =>
    let t' : Ticket :=
      { t with
        assigned_to_id := some assigned_to_id
        status := if t.status = .OPEN then .IN_PROGRESS else t.status }
    (some t',
     { tickets := s.tickets.map (fun u => if u.id == ticket_id then t' else u)
       messages := s.messages })

/-- `TicketService.add_message`: when the ticket exists, auto-advances its
status (staff reply on `OPEN` → `IN_PROGRESS`; requester reply on `WAITING` →
`IN_PROGRESS`); then unconditionally inserts and returns the message — also
when the ticket id refers to no ticket, in which case a dangling message row
is still created. -/
def TicketService.add_message (s : TicketStore) (ticket_id user_id : Nat)
    (message : String) (is_from_staff is_internal : Bool) :
    TicketMessage × TicketStore :=
  let tickets' :=
    match s.findTicket ticket_id with
    | none => s.tickets
    | some t =>
      let t' :=
        if is_from_staff then
          if t.status = .OPEN then { t with status := TicketStatus.IN_PROGRESS } else t
        else
          if t.status = .WAITING then { t with status := TicketStatus.IN_PROGRESS } else t
      s.tickets.map (fun u => if u.id == ticket_id then t' else u)
  let msg : TicketMessage :=
    { ticket_id := ticket_id
      user_id := user_id
      message := message
      is_from_staff := is_from_staff
      is_internal := is_internal }
  (msg, { tickets := tickets', messages := s.messages ++ [msg] })

/-- The `ticket_reopen` callback handler (`reopen_ticket` in
`app/handlers/tickets.py`): unconditionally sets the status to `OPEN` with a
fixed comment — it never inspects the ticket's current status. -/
def reopen_ticket (s : TicketStore) (ticket_id user_id now : Nat) :
    Option Ticket × TicketStore :=
  TicketService.update_status s ticket_id .OPEN user_id
    (some "Переоткрыто пользователем") now

/-- Whether `TicketKeyboards.ticket_actions` renders the reopen button for a
ticket: only in the `RESOLVED` state. -/
def reopenButtonShown (t : Ticket) : Bool :=
  t.status == .RESOLVED

/-- The target statuses offered by the staff `TicketKeyboards.status_change`
menu; `OPEN` is never offered. -/
def statusChangeOptions : List TicketStatus :=
  [.IN_PROGRESS, .WAITING, .RESOLVED, .CLOSED]

/-- A `faq_items` row (`FAQItem` model in `app/database/models.py`). -/
structure FAQItem where
  id : Nat
  category_id : Nat
  question : String
  answer : String
  keywords : Option String
  links : Option String
  views_count : Nat
  helpful_count : Nat
  not_helpful_count : Nat
  order : Nat
  is_active : Bool
  is_pinned : Bool
deriving DecidableEq, Repr

/-- `FAQService.increment_view`: a SQL `UPDATE ... SET views_count =
views_count + 1` on the row with the given id. -/
def FAQService.increment_view (items : List FAQItem) (item_id : Nat) :
    List FAQItem :=
  items.map (fun it =>
    if it.id == item_id then { it with views_count := it.views_count + 1 }
    else it)

/-- `FAQService.rate_item`: adds 1 to `helpful_count` or `not_helpful_count`
of the row with the given id, according to the flag. -/
def FAQService.rate_item (items : List FAQItem) (item_id : Nat)
    (is_helpful : Bool) : List FAQItem :=
  items.map (fun it =>
    if it.id == item_id then
      if is_helpful then { it with helpful_count := it.helpful_count + 1 }
      else { it with not_helpful_count := it.not_helpful_count + 1 }
    else it)

/-- One keyword argument accepted by `FAQService.update_item`: the Python
function copies every supplied `key=value` pair onto the row whenever the
model has an attribute of that name, so every column is settable. -/
inductive FAQField where
  | question (v : String)
  | answer (v : String)
  | keywords (v : Option String)
  | links (v : Option String)
  | order (v : Nat)
  | is_active (v : Bool)
  | is_pinned (v : Bool)
  | category_id (v : Nat)
  | views_count (v : Nat)
  | helpful_count (v : Nat)
  | not_helpful_count (v : Nat)
deriving DecidableEq, Repr

/-- `setattr(item, key, value)` for one keyword argument. -/
def FAQItem.setField (it : FAQItem) (f : FAQField) : FAQItem :=
  match f with
  | .question v => { it with question := v }
  | .answer v => { it with answer := v }
  | .keywords v => { it with keywords := v }
  | .links v => { it with links := v }
  | .order v => { it with order := v }
  | .is_active v => { it with is_active := v }
  | .is_pinned v => { it with is_pinned := v }
  | .category_id v => { it with category_id := v }
  | .views_count v => { it with views_count := v }
  | .helpful_count v => { it with helpful_count := v }
  | .not_helpful_count v => { it with not_helpful_count := v }

/-- `FAQService.update_item`: looks the row up; on a hit copies every supplied
keyword argument onto it, on a miss returns `None` leaving the table
unchanged. -/
def FAQService.update_item (items : List FAQItem) (item_id : Nat)
    (kwargs : List FAQField) : Option FAQItem × List FAQItem :=
  match items.find? (fun it => it.id == item_id) with
  | none => (none, items)
  | some it =>
    let it' := kwargs.foldl FAQItem.setField it
    (some it', items.map (fun u => if u.id == item_id then it' else u))

/-- The searchable text of a FAQ item: question, plus the keyword string when
present (`FAQService.search`). -/
def FAQItem.searchText (it : FAQItem) : String :=
  match it.keywords with
  | some k => it.question ++ " " ++ k
  | none => it.question

/-- The comparator of `key=lambda x: x[1], reverse=True`: by score,
descending. -/
def scoreLE {α : Type} (a b : α × ℚ) : Bool :=
  decide (b.2 ≤ a.2)

/-- Python's `list.sort(key=lambda x: x[1], reverse=True)`: stable descending
sort on the score component. -/
def sortByScoreDesc {α : Type} (l : List (α × ℚ)) : List (α × ℚ) :=
  l.mergeSort scoreLE

/-- Models `rapidfuzz.process.extract(query, texts, scorer, limit)`: scores
every candidate with the supplied scorer, sorts by score descending (stably,
ties following candidate order) and keeps the top `limit`. The token-set-ratio
scorer itself is third-party code and is abstracted as a parameter. -/
def extract {α : Type} (scorer : String → String → ℚ) (query : String)
    (texts : List (α × String)) (limit : Nat) : List (α × ℚ) :=
  (sortByScoreDesc (texts.map (fun p => (p.1, scorer query p.2)))).take limit

/-- The shared tail of `FAQService.search` and `DocumentService.search`:
request `limit * 2` raw candidates from the scorer, keep those with score at
least `threshold`, sort by score descending and truncate to `limit`. -/
def rankPipeline {α : Type} (scorer : String → String → ℚ) (query : String)
    (texts : List (α × String)) (limit : Nat) (threshold : ℚ) :
    List (α × ℚ) :=
  let raw := extract scorer query texts (limit * 2)
  let results := raw.filter (fun p => decide (threshold ≤ p.2))
  (sortByScoreDesc results).take limit

/-- `FAQService.search`: fuzzy search over all active FAQ items; empty pool
gives an empty result. -/
def FAQService.search (scorer : String → String → ℚ) (items : List FAQItem)
    (query : String) (limit : Nat) (threshold : ℚ) : List (FAQItem × ℚ) :=
  if (items.filter (fun it => it.is_active)).isEmpty then []
  else rankPipeline scorer query
    ((items.filter (fun it => it.is_active)).map (fun it => (it, it.searchText)))
    limit threshold

/-- A `documents` row (`Document` model in `app/database/models.py`), the
fields the search path reads. -/
structure Document where
  id : Nat
  name : String
  category : String
  description : Option String
  keywords : Option String
  is_active : Bool
  downloads_count : Nat
deriving DecidableEq, Repr

/-- The searchable text of a document: name, then description and keyword
string when present (`DocumentService.search`). -/
def Document.searchText (d : Document) : String :=
  let withDescription :=
    match d.description with
    | some de => d.name ++ " " ++ de
    | none => d.name
  match d.keywords with
  | some k => withDescription ++ " " ++ k
  | none => withDescription

/-- `DocumentService.search`: fuzzy search over all active documents; empty
pool gives an empty result. -/
def DocumentService.search (scorer : String → String → ℚ)
    (documents : List Document) (query : String) (limit : Nat)
    (threshold : ℚ) : List (Document × ℚ) :=
  if (documents.filter (fun d => d.is_active)).isEmpty then []
  else rankPipeline scorer query
    ((documents.filter (fun d => d.is_active)).map (fun d => (d, d.searchText)))
    limit threshold

/-- A `user_favorites` row (`UserFavorite` model in
`app/database/models.py`). -/
structure UserFavorite where
  user_id : Nat
  faq_item_id : Nat
deriving DecidableEq, Repr

/-- `FAQService.add_to_favorites`: returns `False` and stores nothing when the
(user, item) pair is already favorited, otherwise inserts the pair and
returns `True`. -/
def FAQService.add_to_favorites (favorites : List UserFavorite)
    (user_id faq_item_id : Nat) : Bool × List UserFavorite :=
  if favorites.any (fun f => f.user_id == user_id && f.faq_item_id == faq_item_id) then
    (false, favorites)
  else
    (true, favorites ++ [{ user_id := user_id, faq_item_id := faq_item_id }])

/-- `FAQService.remove_from_favorites`: deletes the row for the (user, item)
pair and returns `True` when it exists, otherwise returns `False` without
error. -/
def FAQService.remove_from_favorites (favorites : List UserFavorite)
    (user_id faq_item_id : Nat) : Bool × List UserFavorite :=
  if favorites.any (fun f => f.user_id == user_id && f.faq_item_id == faq_item_id) then
    (true, favorites.eraseP
      (fun f => f.user_id == user_id && f.faq_item_id == faq_item_id))
  else
    (false, favorites)

/-- User roles, from the `UserRole` enum in `app/database/models.py`. -/
inductive UserRole where
  | STUDENT
  | TEACHER
  | MODERATOR
  | ADMIN
  | ANONYMOUS
deriving DecidableEq, Repr

/-- The Python enum constructor `UserRole(value)`: `some` on the five declared
values, `none` standing for the `ValueError` raised on anything else. -/
def UserRole.ofValue (s : String) : Option UserRole :=
  if s == "student" then some .STUDENT
  else if s == "teacher" then some .TEACHER
  else if s == "moderator" then some .MODERATOR
  else if s == "admin" then some .ADMIN
  else if s == "anonymous" then some .ANONYMOUS
  else none

/-- A `users` row (`User` model in `app/database/models.py`), the fields the
notification path reads. -/
structure User where
  id : Nat
  telegram_id : Nat
  role : UserRole
  course : Option Nat
  group_name : Option String
  faculty : Option String
  is_active : Bool
  notifications_enabled : Bool
deriving DecidableEq, Repr

/-- A `notifications` row (`Notification` model in
`app/database/models.py`). -/
structure Notification where
  title : String
  message : String
  target_role : Option String
  target_group : Option String
  target_course : Option Nat
  target_faculty : Option String
  is_active : Bool
  is_sent : Bool
  sent_count : Nat
  sent_at : Option Nat
deriving DecidableEq, Repr

/-- Whether one user passes the role filter of `get_target_users`. Python's
`if notification.target_role:` skips the filter for `None` and for the empty
string; an invalid role value raises `ValueError`, which the `except` clause
swallows, so that filter is silently dropped as well. -/
def rolePasses (target_role : Option String) (u : User) : Bool :=
  match target_role with
  | none => true
  | some s =>
    if s == "" then true
    else
      match UserRole.ofValue s with
      | none => true
      | some r => u.role == r

/-- `NotificationService.get_target_users`: all active users with
notifications enabled, filtered by the ANDed optional role / group / course /
faculty targets (Python truthiness: empty strings and course 0 disable the
corresponding filter). -/
def NotificationService.get_target_users (users : List User)
    (n : Notification) : List User :=
  users.filter (fun u =>
    u.is_active && u.notifications_enabled &&
    rolePasses n.target_role u &&
    (match n.target_group with
     | none => true
     | some g => if g == "" then true else u.group_name == some g) &&
    (match n.target_course with
     | none => true
     | some c => if c == 0 then true else u.course == some c) &&
    (match n.target_faculty with
     | none => true
     | some f => if f == "" then true else u.faculty == some f))

/-- What the transport does with one `bot.send_message` call: success, or one
of the exception classes the dispatch loop catches. -/
inductive DeliveryOutcome where
  | ok
  | forbidden
  | badRequest
  | otherError
deriving DecidableEq, Repr

/-- The per-recipient loop of `NotificationService.send_notification`: counts
successful sends and collects the ids of users whose delivery raised
`TelegramForbiddenError` (those get `is_active = False`); `BadRequest` and
unexpected errors are only logged. -/
def sendLoop (deliver : User → DeliveryOutcome) (targets : List User) :
    Nat × List Nat :=
  targets.foldl
    (fun acc u =>
      match deliver u with
      | .ok => (acc.1 + 1, acc.2)
      | .forbidden => (acc.1, acc.2 ++ [u.id])
      | .badRequest => acc
      | .otherError => acc)
    (0, [])

/-- `NotificationService.send_notification`: raises (`Except.error`) when no
bot instance is configured; otherwise resolves the targets, attempts delivery
to each independently (a failure never aborts the loop), marks recipients that
raised `TelegramForbiddenError` inactive, stamps the notification as sent, and
returns the sent count — and only the sent count. The transport is modelled by
the `deliver` outcome function. -/
def NotificationService.send_notification (hasBot : Bool) (users : List User)
    (n : Notification) (deliver : User → DeliveryOutcome) (now : Nat) :
    Except String (Nat × List User × Notification) :=
  if hasBot then
    let targets := NotificationService.get_target_users users n
    let loopResult := sendLoop deliver targets
    let users' := users.map (fun u =>
      if loopResult.2.contains u.id then { u with is_active := false } else u)
    let n' : Notification :=
      { n with is_sent := true, sent_at := some now, sent_count := loopResult.1 }
    .ok (loopResult.1, users', n')
  else
    .error "Bot instance not provided"

/-- Python's `round` to an integer: round half to even (banker's rounding),
on the exact rational value. -/
def roundHalfEven (q : ℚ) : ℤ :=
  let f := ⌊q⌋
  let r := q - f
  if r < 1 / 2 then f
  else if 1 / 2 < r then f + 1
  else if Even f then f else f + 1

/-- Python's `round(x, 1)`: one decimal place, ties to even. -/
def roundTo1 (q : ℚ) : ℚ :=
  (roundHalfEven (q * 10) : ℚ) / 10

/-- The `change_percent` computation of
`AnalyticsService.get_dashboard_summary`: relative change of today's request
count versus yesterday's, rounded to one decimal, with the zero-yesterday
branch returning 100 when today is positive and 0 otherwise. -/
def AnalyticsService.change_percent (today_count yesterday_count : Nat) : ℚ :=
  if 0 < yesterday_count then
    roundTo1 ((((today_count : ℚ) - (yesterday_count : ℚ)) / (yesterday_count : ℚ)) * 100)
  else if 0 < today_count then 100
  else 0

/-! Concrete stores used as counterexample and witness inputs. -/

/-- A store holding one ticket in the `CLOSED` state. -/
def closedTicket : Ticket :=
  { id := 1
    ticket_number := "T202501-0001"
    user_id := 7
    assigned_to_id := none
    subject := "subject"
    description := "description"
    status := .CLOSED
    priority := 1
    category := none
    is_anonymous := false
    resolved_at := some 3 }

/-- A one-ticket store whose only ticket is closed. -/
def closedTicketStore : TicketStore :=
  { tickets := [closedTicket], messages := [] }

/-- A store with no tickets and no messages. -/
def emptyTicketStore : TicketStore :=
  { tickets := [], messages := [] }

/-- C1 counterexample: the ticket of `closedTicketStore` is `CLOSED`, yet the
reopen handler moves it to `OPEN` — the attempt is not rejected and the status
does not stay unchanged. -/
theorem reopen_from_closed_not_rejected :
    closedTicketStore.findTicket 1 = some closedTicket ∧
    closedTicket.status = .CLOSED ∧
    ((reopen_ticket closedTicketStore 1 7 10).2.findTicket 1).map Ticket.status
      = some .OPEN ∧
    TicketStatus.OPEN ≠ TicketStatus.CLOSED := by
  refine ⟨rfl, rfl, ?_, by decide⟩
  rfl

/-- C1 amended: the reopen button is rendered exactly for `RESOLVED` tickets
and the staff status menu never offers `OPEN`, but the reopen handler itself
checks nothing: on any existing ticket, whatever its state, it sets the status
to `OPEN`. -/
theorem reopen_gating_spec :
    (∀ t : Ticket, reopenButtonShown t = true ↔ t.status = .RESOLVED) ∧
    TicketStatus.OPEN ∉ statusChangeOptions ∧
    (∀ (s : TicketStore) (tid uid now : Nat) (t : Ticket),
      s.findTicket tid = some t →
      (reopen_ticket s tid uid now).1.map Ticket.status = some .OPEN) := by
  refine ⟨?_, by decide, ?_⟩
  · intro t
    simp [reopenButtonShown]
  · intro s tid uid now t h
    simp [reopen_ticket, TicketService.update_status, h]

/-- Witness for `reopen_gating_spec` at the closed-ticket store. -/
theorem reopen_gating_spec_witness :
    (reopenButtonShown closedTicket = true ↔ closedTicket.status = .RESOLVED) ∧
    (reopen_ticket closedTicketStore 1 7 10).1.map Ticket.status = some .OPEN :=
  ⟨reopen_gating_spec.1 closedTicket,
   reopen_gating_spec.2.2 closedTicketStore 1 7 10 closedTicket rfl⟩

/-- C2: an explicit status change on an existing ticket appends exactly one
system message recording `old → new` (with the optional comment), and the
operation stamps `resolved_at` with the current time precisely when the new
status is `RESOLVED` or `CLOSED` (otherwise the previous value is kept). -/
theorem update_status_spec (s : TicketStore) (tid : Nat) (new : TicketStatus)
    (uid : Nat) (comment : Option String) (now : Nat) (t : Ticket)
    (h : s.findTicket tid = some t) :
    (TicketService.update_status s tid new uid comment now).2.messages =
      s.messages ++
        [{ ticket_id := t.id
           user_id := uid
           message := statusMessageText t.status new comment
           is_from_staff := true
           is_internal := false }] ∧
    (TicketService.update_status s tid new uid comment now).1 =
      some { t with
             status := new
             resolved_at :=
               if new = .RESOLVED ∨ new = .CLOSED then some now
               else t.resolved_at } ∧
    (t.resolved_at = none →
      ∀ t', (TicketService.update_status s tid new uid comment now).1 = some t' →
        (t'.resolved_at ≠ none ↔ (new = .RESOLVED ∨ new = .CLOSED))) := by
  refine ⟨?_, ?_, ?_⟩
  · simp [TicketService.update_status, h]
  · simp [TicketService.update_status, h]
  · intro hnone t' ht'
    simp [TicketService.update_status, h] at ht'
    subst ht'
    by_cases hrc : new = TicketStatus.RESOLVED ∨ new = TicketStatus.CLOSED
    · simp [hrc]
    · simp [hrc, hnone]

/-- Witness for `update_status_spec`: closing the closed-store's ticket. -/
theorem update_status_spec_witness :
    (TicketService.update_status closedTicketStore 1 .RESOLVED 9 none 42).1 =
      some { closedTicket with
             status := TicketStatus.RESOLVED
             resolved_at :=
               if TicketStatus.RESOLVED = TicketStatus.RESOLVED ∨
                  TicketStatus.RESOLVED = TicketStatus.CLOSED
               then some 42 else closedTicket.resolved_at } :=
  (update_status_spec closedTicketStore 1 .RESOLVED 9 none 42 closedTicket rfl).2.1

/-- C4 counterexample: `add_message` on a store without ticket 1 still inserts
a (dangling) message row and returns it — it yields no not-found outcome and
does mutate the store. -/
theorem add_message_missing_ticket_creates_row :
    emptyTicketStore.findTicket 1 = none ∧
    (TicketService.add_message emptyTicketStore 1 2 "hi" false false).2.messages =
      [{ ticket_id := 1, user_id := 2, message := "hi",
         is_from_staff := false, is_internal := false }] ∧
    (TicketService.add_message emptyTicketStore 1 2 "hi" false false).1 =
      { ticket_id := 1, user_id := 2, message := "hi",
        is_from_staff := false, is_internal := false } := by
  refine ⟨rfl, rfl, rfl⟩

/-- C4 amended: on a missing ticket id, `update_status` and `assign_ticket`
return `None` and leave the store untouched, while `add_message` has no
not-found path: it inserts the message row with the dangling ticket id and
returns it. -/
theorem missing_ticket_spec (s : TicketStore) (tid : Nat) (new : TicketStatus)
    (uid : Nat) (comment : Option String) (now aid : Nat) (m : String)
    (fromStaff internal : Bool) (h : s.findTicket tid = none) :
    TicketService.update_status s tid new uid comment now = (none, s) ∧
    TicketService.assign_ticket s tid aid = (none, s) ∧
    TicketService.add_message s tid uid m fromStaff internal =
      ({ ticket_id := tid, user_id := uid, message := m,
         is_from_staff := fromStaff, is_internal := internal },
       { tickets := s.tickets
         messages := s.messages ++
           [{ ticket_id := tid, user_id := uid, message := m,
              is_from_staff := fromStaff, is_internal := internal }] }) := by
  refine ⟨?_, ?_, ?_⟩
  · simp [TicketService.update_status, h]
  · simp [TicketService.assign_ticket, h]
  · simp [TicketService.add_message, h]

/-- Witness for `missing_ticket_spec` at the empty store. -/
theorem missing_ticket_spec_witness :
    TicketService.update_status emptyTicketStore 3 .CLOSED 2 none 5 =
      (none, emptyTicketStore) ∧
    TicketService.assign_ticket emptyTicketStore 3 4 = (none, emptyTicketStore) :=
  ⟨(missing_ticket_spec emptyTicketStore 3 .CLOSED 2 none 5 4 "x" false false rfl).1,
   (missing_ticket_spec emptyTicketStore 3 .CLOSED 2 none 5 4 "x" false false rfl).2.1⟩

/-- C6: a created ticket starts in `OPEN` state, and (when its fresh id had no
dangling messages) its message log holds exactly one message whose body is the
supplied description, authored by the requester, not staff-flagged. -/
theorem create_ticket_spec (s : TicketStore) (number : String) (uid : Nat)
    (subject description : String) (category : Option String) (priority : Nat)
    (anon : Bool)
    (h : s.messages.filter
      (fun m => m.ticket_id ==
        (TicketService.create_ticket s number uid subject description category
          priority anon).1.id) = []) :
    (TicketService.create_ticket s number uid subject description category
      priority anon).1.status = .OPEN ∧
    (TicketService.create_ticket s number uid subject description category
        priority anon).2.messages.filter
      (fun m => m.ticket_id ==
        (TicketService.create_ticket s number uid subject description category
          priority anon).1.id) =
      [{ ticket_id :=
           (TicketService.create_ticket s number uid subject description
             category priority anon).1.id
         user_id := uid
         message := description
         is_from_staff := false
         is_internal := false }] := by
  refine ⟨rfl, ?_⟩
  show (s.messages ++ [_]).filter _ = _
  rw [List.filter_append, h]
  simp [TicketService.create_ticket]

/-- Witness for `create_ticket_spec` at the empty store. -/
theorem create_ticket_spec_witness :
    (TicketService.create_ticket emptyTicketStore "T202501-0002" 4 "subj"
      "desc" none 1 false).1.status = .OPEN :=
  (create_ticket_spec emptyTicketStore "T202501-0002" 4 "subj" "desc" none 1
    false rfl).1

/-- C7: `change_percent` is the rounded relative change when yesterday is
positive, 100 when yesterday is zero and today positive, 0 when both are zero;
in particular (today 5, yesterday 0) gives 100 and (today 5, yesterday 10)
gives -50.0. -/
theorem change_percent_spec :
    (∀ t y : Nat, 0 < y →
      AnalyticsService.change_percent t y =
        roundTo1 (((t : ℚ) - (y : ℚ)) / (y : ℚ) * 100)) ∧
    (∀ t : Nat, 0 < t → AnalyticsService.change_percent t 0 = 100) ∧
    AnalyticsService.change_percent 0 0 = 0 ∧
    AnalyticsService.change_percent 5 0 = 100 ∧
    AnalyticsService.change_percent 5 10 = -50 := by
  refine ⟨?_, ?_, ?_, ?_, ?_⟩
  · intro t y hy
    simp [AnalyticsService.change_percent, hy]
  · intro t ht
    simp [AnalyticsService.change_percent, ht]
  · rfl
  · rfl
  · have h1 : (((5 : Nat) : ℚ) - ((10 : Nat) : ℚ)) / ((10 : Nat) : ℚ) * 100 = -50 := by
      norm_num
    have h2 : roundHalfEven ((-50 : ℚ) * 10) = -500 := by
      have hfl : ⌊(-50 : ℚ) * 10⌋ = -500 := by norm_num
      unfold roundHalfEven
      rw [hfl]
      norm_num
    have : AnalyticsService.change_percent 5 10 =
        roundTo1 ((((5 : Nat) : ℚ) - ((10 : Nat) : ℚ)) / ((10 : Nat) : ℚ) * 100) := by
      simp [AnalyticsService.change_percent]
    rw [this, h1, roundTo1, h2]
    norm_num

/-- Witness for `change_percent_spec` at (5, 10) and (5, 0). -/
theorem change_percent_spec_witness :
    AnalyticsService.change_percent 5 10 =
      roundTo1 (((5 : ℚ) - (10 : ℚ)) / (10 : ℚ) * 100) ∧
    AnalyticsService.change_percent 5 0 = 100 :=
  ⟨change_percent_spec.1 5 10 (by norm_num), change_percent_spec.2.1 5 (by norm_num)⟩

/-- C9: starting from a favorites table without the (user, item) pair, the
first add succeeds and stores the pair, a second add reports
already-favorited and stores nothing, removal succeeds and deletes the pair,
and a second removal reports not-found and leaves the table unchanged. -/
theorem favorites_spec (favorites : List UserFavorite) (u i : Nat)
    (h : ∀ f ∈ favorites, ¬(f.user_id = u ∧ f.faq_item_id = i)) :
    FAQService.add_to_favorites favorites u i =
      (true, favorites ++ [{ user_id := u, faq_item_id := i }]) ∧
    FAQService.add_to_favorites
        (favorites ++ [{ user_id := u, faq_item_id := i }]) u i =
      (false, favorites ++ [{ user_id := u, faq_item_id := i }]) ∧
    FAQService.remove_from_favorites
        (favorites ++ [{ user_id := u, faq_item_id := i }]) u i =
      (true, favorites) ∧
    FAQService.remove_from_favorites favorites u i = (false, favorites) := by
  have hany : favorites.any
      (fun f => f.user_id == u && f.faq_item_id == i) = false := by
    rw [List.any_eq_false]
    intro f hf
    have := h f hf
    simp only [Bool.and_eq_true, beq_iff_eq]
    tauto
  have hnone : ∀ f ∈ favorites,
      ¬(f.user_id == u && f.faq_item_id == i) = true := by
    intro f hf
    have := h f hf
    simp only [Bool.and_eq_true, beq_iff_eq]
    tauto
  refine ⟨?_, ?_, ?_, ?_⟩
  · simp [FAQService.add_to_favorites, hany]
  · simp [FAQService.add_to_favorites]
  · have herase :
        (favorites ++ [({ user_id := u, faq_item_id := i } : UserFavorite)]).eraseP
          (fun f => f.user_id == u && f.faq_item_id == i) = favorites := by
      rw [List.eraseP_append_right _ hnone]
      simp [List.eraseP_cons]
    simp [FAQService.remove_from_favorites, herase]
  · simp [FAQService.remove_from_favorites, hany]

/-- Witness for `favorites_spec` on the empty favorites table. -/
theorem favorites_spec_witness :
    FAQService.add_to_favorites [] 1 2 =
      (true, [({ user_id := 1, faq_item_id := 2 } : UserFavorite)]) ∧
    FAQService.remove_from_favorites
        [({ user_id := 1, faq_item_id := 2 } : UserFavorite)] 1 2 =
      (true, []) :=
  ⟨(favorites_spec [] 1 2 (by simp)).1,
   by
    have h := (favorites_spec [] 1 2 (by simp)).2.2.1
    simpa using h⟩

/-- C10: when a notification's `target_role` string is not a valid role
value, the conversion error is swallowed and the role filter silently
dropped: the target set equals the one for the same notification without a
role target, i.e. all active, notification-enabled users matching only the
remaining filters. -/
theorem invalid_role_filter_dropped (users : List User) (n : Notification)
    (s : String) (hs : n.target_role = some s)
    (hv : UserRole.ofValue s = none) :
    NotificationService.get_target_users users n =
      NotificationService.get_target_users users { n with target_role := none } := by
  unfold NotificationService.get_target_users
  apply List.filter_congr
  intro u _
  have hrole : rolePasses n.target_role u = true := by
    rw [hs]
    unfold rolePasses
    by_cases hse : s == ""
    · simp [hse]
    · simp [hse, hv]
  have hrole2 : rolePasses (none : Option String) u = true := rfl
  simp [hrole, hrole2]

/-- A student user used as witness input. -/
def sampleStudent : User :=
  { id := 1
    telegram_id := 100
    role := .STUDENT
    course := some 2
    group_name := some "211-721"
    faculty := some "IT"
    is_active := true
    notifications_enabled := true }

/-- A notification targeting the invalid role string "staff". -/
def staffRoleNotification : Notification :=
  { title := "t"
    message := "m"
    target_role := some "staff"
    target_group := none
    target_course := none
    target_faculty := none
    is_active := true
    is_sent := false
    sent_count := 0
    sent_at := none }

/-- Witness for `invalid_role_filter_dropped`: the invalid role "staff" is
dropped, so the student is still targeted. -/
theorem invalid_role_filter_dropped_witness :
    NotificationService.get_target_users [sampleStudent] staffRoleNotification =
      NotificationService.get_target_users [sampleStudent]
        { staffRoleNotification with target_role := none } :=
  invalid_role_filter_dropped [sampleStudent] staffRoleNotification "staff"
    rfl rfl

/-! C8: the FAQ counter invariant. -/

/-- Does a keyword argument target one of the three statistics counters? -/
def FAQField.isCounterField : FAQField → Bool
  | .views_count _ => true
  | .helpful_count _ => true
  | .not_helpful_count _ => true
  | _ => false

/-- One invocation of the FAQ-item mutators named by the counter invariant:
the view increment, the rating, and the generic field update. -/
inductive FAQOp where
  | incrementView (item_id : Nat)
  | rateItem (item_id : Nat) (is_helpful : Bool)
  | updateItem (item_id : Nat) (kwargs : List FAQField)
deriving DecidableEq, Repr

/-- Run one operation against the FAQ table. -/
def FAQOp.apply (items : List FAQItem) : FAQOp → List FAQItem
  | .incrementView item_id => FAQService.increment_view items item_id
  | .rateItem item_id is_helpful => FAQService.rate_item items item_id is_helpful
  | .updateItem item_id kwargs => (FAQService.update_item items item_id kwargs).2

/-- Run a sequence of operations against the FAQ table. -/
def applyFAQOps (items : List FAQItem) (ops : List FAQOp) : List FAQItem :=
  ops.foldl FAQOp.apply items

/-- An operation whose field updates never touch a counter column. -/
def FAQOp.counterSafe : FAQOp → Bool
  | .updateItem _ kwargs => kwargs.all (fun f => !f.isCounterField)
  | _ => true

/-- Componentwise order on the three counters of a FAQ item. -/
def countersLE (a b : FAQItem) : Prop :=
  a.views_count ≤ b.views_count ∧ a.helpful_count ≤ b.helpful_count ∧
    a.not_helpful_count ≤ b.not_helpful_count

theorem countersLE_refl (a : FAQItem) : countersLE a a :=
  ⟨le_refl _, le_refl _, le_refl _⟩

theorem countersLE_trans {a b c : FAQItem} (h₁ : countersLE a b)
    (h₂ : countersLE b c) : countersLE a c :=
  ⟨h₁.1.trans h₂.1, h₁.2.1.trans h₂.2.1, h₁.2.2.trans h₂.2.2⟩

theorem forall₂_countersLE_trans {l₁ l₂ l₃ : List FAQItem}
    (h₁ : List.Forall₂ countersLE l₁ l₂) (h₂ : List.Forall₂ countersLE l₂ l₃) :
    List.Forall₂ countersLE l₁ l₃ := by
  induction h₁ generalizing l₃ with
  | nil => cases h₂; exact .nil
  | cons hab htail ih =>
    cases h₂ with
    | cons hbc h₂tail => exact .cons (countersLE_trans hab hbc) (ih h₂tail)

theorem setField_id (it : FAQItem) (f : FAQField) :
    (it.setField f).id = it.id := by
  cases f <;> rfl

theorem setField_counters (it : FAQItem) (f : FAQField)
    (hf : f.isCounterField = false) :
    (it.setField f).views_count = it.views_count ∧
    (it.setField f).helpful_count = it.helpful_count ∧
    (it.setField f).not_helpful_count = it.not_helpful_count := by
  cases f <;> simp_all [FAQItem.setField, FAQField.isCounterField]

theorem foldl_setField_id (kwargs : List FAQField) (it : FAQItem) :
    (kwargs.foldl FAQItem.setField it).id = it.id := by
  induction kwargs generalizing it with
  | nil => rfl
  | cons f rest ih =>
    simp only [List.foldl_cons]
    exact (ih (it.setField f)).trans (setField_id it f)

theorem foldl_setField_spec (kwargs : List FAQField) :
    kwargs.all (fun f => !f.isCounterField) = true → ∀ it : FAQItem,
    (kwargs.foldl FAQItem.setField it).views_count = it.views_count ∧
    (kwargs.foldl FAQItem.setField it).helpful_count = it.helpful_count ∧
    (kwargs.foldl FAQItem.setField it).not_helpful_count = it.not_helpful_count := by
  induction kwargs with
  | nil => exact fun _ it => ⟨rfl, rfl, rfl⟩
  | cons f rest ih =>
    intro h it
    have hf : f.isCounterField = false := by
      have := (List.all_eq_true.mp h) f (List.mem_cons_self f rest)
      simpa using this
    have hrest : rest.all (fun g => !g.isCounterField) = true := by
      rw [List.all_eq_true]
      intro x hx
      exact (List.all_eq_true.mp h) x (List.mem_cons_of_mem f hx)
    have hc := setField_counters it f hf
    have hr := ih hrest (it.setField f)
    simp only [List.foldl_cons]
    exact ⟨hr.1.trans hc.1, hr.2.1.trans hc.2.1, hr.2.2.trans hc.2.2⟩

theorem find?_id_spec {items : List FAQItem} {item_id : Nat} {it : FAQItem}
    (hfind : items.find? (fun u => u.id == item_id) = some it) :
    it ∈ items ∧ it.id = item_id := by
  refine ⟨List.mem_of_find?_eq_some hfind, ?_⟩
  have h := List.find?_some hfind
  simpa using h

theorem faqOp_apply_ids (op : FAQOp) (items : List FAQItem) :
    (op.apply items).map (fun it => it.id) = items.map (fun it => it.id) := by
  cases op with
  | incrementView item_id =>
    simp only [FAQOp.apply, FAQService.increment_view, List.map_map]
    apply List.map_congr_left
    intro a _
    by_cases h : a.id = item_id <;> simp [h]
  | rateItem item_id is_helpful =>
    simp only [FAQOp.apply, FAQService.rate_item, List.map_map]
    apply List.map_congr_left
    intro a _
    by_cases h : a.id = item_id <;> by_cases hh : is_helpful <;> simp [h, hh]
  | updateItem item_id kwargs =>
    simp only [FAQOp.apply, FAQService.update_item]
    cases hfind : items.find? (fun it => it.id == item_id) with
    | none => rfl
    | some it =>
      simp only [List.map_map]
      apply List.map_congr_left
      intro a _
      by_cases h : a.id = item_id
      · have hid : it.id = item_id := (find?_id_spec hfind).2
        have hfold : (kwargs.foldl FAQItem.setField it).id = it.id :=
          foldl_setField_id kwargs it
        simp [h, hfold, hid]
      · simp [h]

theorem faqOp_apply_countersLE (op : FAQOp) (items : List FAQItem)
    (hop : op.counterSafe = true)
    (hids : (items.map (fun it => it.id)).Nodup) :
    List.Forall₂ countersLE items (op.apply items) := by
  cases op with
  | incrementView item_id =>
    simp only [FAQOp.apply, FAQService.increment_view]
    rw [List.forall₂_map_right_iff, List.forall₂_same]
    intro a _
    by_cases h : a.id = item_id <;>
      simp [h, countersLE, Nat.le_succ]
  | rateItem item_id is_helpful =>
    simp only [FAQOp.apply, FAQService.rate_item]
    rw [List.forall₂_map_right_iff, List.forall₂_same]
    intro a _
    by_cases h : a.id = item_id <;> by_cases hh : is_helpful <;>
      simp [h, hh, countersLE, Nat.le_succ]
  | updateItem item_id kwargs =>
    simp only [FAQOp.apply, FAQService.update_item, FAQOp.counterSafe] at hop ⊢
    cases hfind : items.find? (fun it => it.id == item_id) with
    | none => exact List.forall₂_same.mpr (fun a _ => countersLE_refl a)
    | some it =>
      simp only
      rw [List.forall₂_map_right_iff, List.forall₂_same]
      intro a ha
      by_cases h : a.id = item_id
      · have hmem : it ∈ items := (find?_id_spec hfind).1
        have hid : it.id = item_id := (find?_id_spec hfind).2
        have haid : a.id = it.id := h.trans hid.symm
        have hinj := List.inj_on_of_nodup_map hids ha hmem haid
        have hspec := foldl_setField_spec kwargs hop it
        subst hinj
        simp [h, countersLE, hspec.1, hspec.2.1, hspec.2.2]
      · simp [h, countersLE_refl]

/-- C8 counterexample: `update_item` with a `views_count` keyword argument
resets the view counter — the item's `views_count` drops from 5 to 0, so an
operation other than the view increment and the rating changes (and
decreases) a counter. -/
theorem update_item_resets_counter :
    ((FAQService.update_item
        [{ id := 1, category_id := 1, question := "q", answer := "a",
           keywords := none, links := none, views_count := 5,
           helpful_count := 0, not_helpful_count := 0, order := 0,
           is_active := true, is_pinned := false }] 1
        [.views_count 0]).2.map (fun it => it.views_count)) = [0] ∧
    ¬(5 ≤ 0) := by
  exact ⟨rfl, by decide⟩

/-- C8 amended: `increment_view` adds exactly 1 to the target's `views_count`
and changes nothing else; `rate_item` adds exactly 1 to the counter selected
by its flag; `update_item` leaves all three counters of every row unchanged
provided its keyword arguments avoid the counter columns (they are ordinary
settable columns, so this proviso is necessary); and over any sequence of
these operations whose updates avoid the counter columns, the counters of
every row are monotonically non-decreasing (rows keyed by unique ids). -/
theorem faq_counters_spec :
    (∀ (items : List FAQItem) (item_id : Nat),
      List.Forall₂ (fun a b =>
          b.views_count = a.views_count + (if a.id == item_id then 1 else 0) ∧
          b.helpful_count = a.helpful_count ∧
          b.not_helpful_count = a.not_helpful_count)
        items (FAQService.increment_view items item_id)) ∧
    (∀ (items : List FAQItem) (item_id : Nat) (is_helpful : Bool),
      List.Forall₂ (fun a b =>
          b.views_count = a.views_count ∧
          b.helpful_count = a.helpful_count +
            (if (a.id == item_id) && is_helpful then 1 else 0) ∧
          b.not_helpful_count = a.not_helpful_count +
            (if (a.id == item_id) && !is_helpful then 1 else 0))
        items (FAQService.rate_item items item_id is_helpful)) ∧
    (∀ (items : List FAQItem) (item_id : Nat) (kwargs : List FAQField),
      kwargs.all (fun f => !f.isCounterField) = true →
      (items.map (fun it => it.id)).Nodup →
      List.Forall₂ (fun a b =>
          b.views_count = a.views_count ∧
          b.helpful_count = a.helpful_count ∧
          b.not_helpful_count = a.not_helpful_count)
        items (FAQService.update_item items item_id kwargs).2) ∧
    (∀ (ops : List FAQOp), (∀ op ∈ ops, op.counterSafe = true) →
      ∀ (items : List FAQItem), (items.map (fun it => it.id)).Nodup →
      List.Forall₂ countersLE items (applyFAQOps items ops)) := by
  refine ⟨?_, ?_, ?_, ?_⟩
  · intro items item_id
    unfold FAQService.increment_view
    rw [List.forall₂_map_right_iff, List.forall₂_same]
    intro a _
    by_cases h : a.id = item_id <;> simp [h]
  · intro items item_id is_helpful
    unfold FAQService.rate_item
    rw [List.forall₂_map_right_iff, List.forall₂_same]
    intro a _
    by_cases h : a.id = item_id <;> by_cases hh : is_helpful <;> simp [h, hh]
  · intro items item_id kwargs hk hids
    unfold FAQService.update_item
    cases hfind : items.find? (fun it => it.id == item_id) with
    | none => exact List.forall₂_same.mpr (fun a _ => ⟨rfl, rfl, rfl⟩)
    | some it =>
      simp only
      rw [List.forall₂_map_right_iff, List.forall₂_same]
      intro a ha
      by_cases h : a.id = item_id
      · have hmem : it ∈ items := (find?_id_spec hfind).1
        have hid : it.id = item_id := (find?_id_spec hfind).2
        have haid : a.id = it.id := h.trans hid.symm
        have hinj := List.inj_on_of_nodup_map hids ha hmem haid
        have hspec := foldl_setField_spec kwargs hk it
        subst hinj
        simp [h, hspec.1, hspec.2.1, hspec.2.2]
      · simp [h]
  · intro ops hops items hids
    induction ops generalizing items with
    | nil => exact List.forall₂_same.mpr (fun a _ => countersLE_refl a)
    | cons op rest ih =>
      have hop : op.counterSafe = true := hops op (List.mem_cons_self op rest)
      have hstep := faqOp_apply_countersLE op items hop hids
      have hids' : ((op.apply items).map (fun it => it.id)).Nodup := by
        rw [faqOp_apply_ids]; exact hids
      have htail := ih (fun o ho => hops o (List.mem_cons_of_mem op ho))
        (op.apply items) hids'
      exact forall₂_countersLE_trans hstep htail

/-- Witness for `faq_counters_spec`: a counter-safe answer edit followed by a
view increment on a one-row table is counter-monotone. -/
theorem faq_counters_spec_witness :
    List.Forall₂ countersLE
      [{ id := 1, category_id := 1, question := "q", answer := "a",
         keywords := none, links := none, views_count := 5,
         helpful_count := 0, not_helpful_count := 0, order := 0,
         is_active := true, is_pinned := false }]
      (applyFAQOps
        [{ id := 1, category_id := 1, question := "q", answer := "a",
           keywords := none, links := none, views_count := 5,
           helpful_count := 0, not_helpful_count := 0, order := 0,
           is_active := true, is_pinned := false }]
        [.updateItem 1 [.answer "b"], .incrementView 1]) :=
  faq_counters_spec.2.2.2 [.updateItem 1 [.answer "b"], .incrementView 1]
    (by decide) _ (by simp)

/-! C5: the notification dispatcher. -/

theorem sendLoop_go (deliver : User → DeliveryOutcome) (targets : List User)
    (c : Nat) (ids : List Nat) :
    targets.foldl
      (fun acc u =>
        match deliver u with
        | .ok => (acc.1 + 1, acc.2)
        | .forbidden => (acc.1, acc.2 ++ [u.id])
        | .badRequest => acc
        | .otherError => acc)
      (c, ids) =
      (c + (targets.filter (fun u => deliver u == .ok)).length,
       ids ++ (targets.filter
         (fun u => deliver u == .forbidden)).map (fun u => u.id)) := by
  induction targets generalizing c ids with
  | nil => simp
  | cons u rest ih =>
    cases hd : deliver u <;> simp [List.foldl_cons, hd, ih]
    all_goals omega

theorem sendLoop_spec (deliver : User → DeliveryOutcome) (targets : List User) :
    sendLoop deliver targets =
      ((targets.filter (fun u => deliver u == .ok)).length,
       (targets.filter
         (fun u => deliver u == .forbidden)).map (fun u => u.id)) := by
  unfold sendLoop
  rw [sendLoop_go]
  simp

/-- Two concrete recipients: user 1's delivery raises the forbidden (blocked)
error, user 2's raises a bad-request error. -/
def blockedUser : User :=
  { id := 1, telegram_id := 11, role := .STUDENT, course := none,
    group_name := none, faculty := none, is_active := true,
    notifications_enabled := true }

/-- The second recipient, whose delivery fails with a non-forbidden error. -/
def badRequestUser : User :=
  { id := 2, telegram_id := 22, role := .STUDENT, course := none,
    group_name := none, faculty := none, is_active := true,
    notifications_enabled := true }

/-- An untargeted notification reaching every enabled user. -/
def broadcastNotification : Notification :=
  { title := "t", message := "m", target_role := none, target_group := none,
    target_course := none, target_faculty := none, is_active := true,
    is_sent := false, sent_count := 0, sent_at := none }

/-- The transport behaviour for the counterexample: user 1 is blocked,
user 2 errors with a bad request. -/
def mixedDeliver (u : User) : DeliveryOutcome :=
  if u.id == 1 then .forbidden else .badRequest

/-- C5 counterexample: with two targeted recipients both rejecting delivery
(one forbidden, one bad-request), the dispatcher returns a bare sent count of
0 — there is no failed-count component — and the bad-request recipient is NOT
marked inactive, while the claim demands every rejecting recipient be
deactivated (and, on the narrower blocked-only reading of "reject", a tally
of sent 1 = 2 - 1, not 0). -/
theorem send_notification_counterexample :
    NotificationService.get_target_users [blockedUser, badRequestUser]
      broadcastNotification = [blockedUser, badRequestUser] ∧
    NotificationService.send_notification true [blockedUser, badRequestUser]
        broadcastNotification mixedDeliver 5 =
      .ok (0,
        [{ blockedUser with is_active := false }, badRequestUser],
        { broadcastNotification with
          is_sent := true
          sent_at := some 5
          sent_count := 0 }) ∧
    badRequestUser.is_active = true ∧
    (0 : Nat) ≠ 2 - 1 := by
  refine ⟨rfl, ?_, rfl, by decide⟩
  rfl

/-- C5 amended: the dispatcher raises exactly when no bot instance is
available; otherwise it attempts delivery to every resolved recipient (the
loop is total — no failure aborts it), returns only the sent count
`sent = N - M` (N targeted recipients, M delivery failures of any kind; no
failed count is part of the result), marks exactly the recipients rejecting
with the forbidden (blocked) error inactive, and stamps the notification
sent. -/
theorem send_notification_spec (users : List User) (n : Notification)
    (deliver : User → DeliveryOutcome) (now : Nat) :
    NotificationService.send_notification false users n deliver now =
      .error "Bot instance not provided" ∧
    NotificationService.send_notification true users n deliver now =
      .ok (((NotificationService.get_target_users users n).filter
              (fun u => deliver u == .ok)).length,
           users.map (fun u =>
             if (((NotificationService.get_target_users users n).filter
                   (fun v => deliver v == .forbidden)).map
                 (fun v => v.id)).contains u.id
             then { u with is_active := false } else u),
           { n with
             is_sent := true
             sent_at := some now
             sent_count :=
               ((NotificationService.get_target_users users n).filter
                 (fun u => deliver u == .ok)).length }) ∧
    ((NotificationService.get_target_users users n).filter
        (fun u => deliver u == .ok)).length =
      (NotificationService.get_target_users users n).length -
        ((NotificationService.get_target_users users n).filter
          (fun u => !(deliver u == .ok))).length := by
  refine ⟨rfl, ?_, ?_⟩
  · unfold NotificationService.send_notification
    simp only [if_true, ite_true, sendLoop_spec]
  · have h := List.length_eq_length_filter_add
      (l := NotificationService.get_target_users users n)
      (fun u => deliver u == .ok)
    omega

/-! C3: the search ranking contract. -/

theorem scoreLE_trans {α : Type} : ∀ a b c : α × ℚ,
    scoreLE a b → scoreLE b c → scoreLE a c := by
  intro a b c hab hbc
  simp only [scoreLE, decide_eq_true_eq] at hab hbc ⊢
  exact hbc.trans hab

theorem scoreLE_total {α : Type} : ∀ a b : α × ℚ,
    scoreLE a b || scoreLE b a := by
  intro a b
  simp only [scoreLE, Bool.or_eq_true, decide_eq_true_eq]
  exact le_total b.2 a.2

theorem sortByScoreDesc_pairwise {α : Type} (l : List (α × ℚ)) :
    (sortByScoreDesc l).Pairwise (fun a b => b.2 ≤ a.2) := by
  have h := List.sorted_mergeSort scoreLE_trans scoreLE_total l
  exact h.imp (fun hab => by simpa [scoreLE] using hab)

theorem sortByScoreDesc_of_sorted {α : Type} {l : List (α × ℚ)}
    (h : l.Pairwise (fun a b => b.2 ≤ a.2)) : sortByScoreDesc l = l :=
  List.mergeSort_of_sorted (h.imp (fun hab => by simpa [scoreLE] using hab))

theorem mem_sortByScoreDesc {α : Type} {l : List (α × ℚ)} {a : α × ℚ} :
    a ∈ sortByScoreDesc l ↔ a ∈ l :=
  List.mem_mergeSort

/-- The search contract written from the specification, to be compared with
the source-translated search functions: the result holds at most `limit`
entries, each scoring at least `threshold`, ordered by descending score with
ties kept stably in candidate order (the result is a subsequence of the
stable descending sort of the scored pool), and no candidate left out of the
result outscores a returned one. -/
def searchContract {α : Type} (scored : List (α × ℚ)) (limit : Nat)
    (threshold : ℚ) (result : List (α × ℚ)) : Prop :=
  result.length ≤ limit ∧
  (∀ p ∈ result, threshold ≤ p.2) ∧
  result.Pairwise (fun a b => b.2 ≤ a.2) ∧
  result.Sublist (sortByScoreDesc scored) ∧
  (∀ p ∈ scored, p ∉ result → ∀ r ∈ result, p.2 ≤ r.2)

theorem rankPipeline_contract {α : Type} (scorer : String → String → ℚ)
    (query : String) (texts : List (α × String)) (limit : Nat)
    (threshold : ℚ) :
    searchContract (texts.map (fun p => (p.1, scorer query p.2))) limit
      threshold (rankPipeline scorer query texts limit threshold) := by
  have hSsorted := sortByScoreDesc_pairwise
    (texts.map (fun p => (p.1, scorer query p.2)))
  have hRawSorted :
      ((sortByScoreDesc (texts.map (fun p => (p.1, scorer query p.2)))).take
        (limit * 2)).Pairwise (fun a b => b.2 ≤ a.2) :=
    List.Pairwise.sublist (List.take_sublist _ _) hSsorted
  have hResSorted :
      (((sortByScoreDesc (texts.map (fun p => (p.1, scorer query p.2)))).take
          (limit * 2)).filter
        (fun p => decide (threshold ≤ p.2))).Pairwise
        (fun a b => b.2 ≤ a.2) :=
    List.Pairwise.sublist (List.filter_sublist _) hRawSorted
  have hpipe : rankPipeline scorer query texts limit threshold =
      (((sortByScoreDesc (texts.map (fun p => (p.1, scorer query p.2)))).take
          (limit * 2)).filter
        (fun p => decide (threshold ≤ p.2))).take limit := by
    simp only [rankPipeline, extract]
    rw [sortByScoreDesc_of_sorted hResSorted]
  rw [hpipe]
  refine ⟨List.length_take_le _ _, ?_, ?_, ?_, ?_⟩
  · intro p hp
    have hpres := List.mem_of_mem_take hp
    have := (List.mem_filter.mp hpres).2
    simpa using this
  · exact List.Pairwise.sublist (List.take_sublist _ _) hResSorted
  · exact ((List.take_sublist _ _).trans
      ((List.filter_sublist _).trans (List.take_sublist _ _)))
  · intro p hp hpnot r hr
    have hrRes := List.mem_of_mem_take hr
    have hrRaw := (List.mem_filter.mp hrRes).1
    have hrT : threshold ≤ r.2 := by
      have := (List.mem_filter.mp hrRes).2
      simpa using this
    have hpS : p ∈ sortByScoreDesc
        (texts.map (fun p => (p.1, scorer query p.2))) :=
      mem_sortByScoreDesc.mpr hp
    by_cases hpraw :
        p ∈ (sortByScoreDesc (texts.map (fun p => (p.1, scorer query p.2)))).take
          (limit * 2)
    · by_cases hpT : threshold ≤ p.2
      · have hpres : p ∈ ((sortByScoreDesc
            (texts.map (fun p => (p.1, scorer query p.2)))).take
              (limit * 2)).filter (fun p => decide (threshold ≤ p.2)) :=
          List.mem_filter.mpr ⟨hpraw, by simpa using hpT⟩
        have hpdrop : p ∈ (((sortByScoreDesc
            (texts.map (fun p => (p.1, scorer query p.2)))).take
              (limit * 2)).filter
            (fun p => decide (threshold ≤ p.2))).drop limit := by
          rw [← List.take_append_drop limit (((sortByScoreDesc
            (texts.map (fun p => (p.1, scorer query p.2)))).take
              (limit * 2)).filter (fun p => decide (threshold ≤ p.2)))] at hpres
          rcases List.mem_append.mp hpres with h | h
          · exact absurd h hpnot
          · exact h
        have hsplit := hResSorted
        rw [← List.take_append_drop limit (((sortByScoreDesc
          (texts.map (fun p => (p.1, scorer query p.2)))).take
            (limit * 2)).filter (fun p => decide (threshold ≤ p.2)))] at hsplit
        exact (List.pairwise_append.mp hsplit).2.2 r hr p hpdrop
      · exact (lt_of_not_le hpT).le.trans hrT
    · have hpdropS : p ∈ (sortByScoreDesc
          (texts.map (fun p => (p.1, scorer query p.2)))).drop (limit * 2) := by
        rw [← List.take_append_drop (limit * 2) (sortByScoreDesc
          (texts.map (fun p => (p.1, scorer query p.2))))] at hpS
        rcases List.mem_append.mp hpS with h | h
        · exact absurd h hpraw
        · exact h
      have hsplitS := hSsorted
      rw [← List.take_append_drop (limit * 2) (sortByScoreDesc
        (texts.map (fun p => (p.1, scorer query p.2))))] at hsplitS
      exact (List.pairwise_append.mp hsplitS).2.2 r hrRaw p hpdropS

/-- C3: both search operations satisfy the ranking contract over their
scored active candidate pools — at most `limit` results, every returned score
at least `threshold`, descending order with stable ties (a subsequence of the
stable descending sort of the pool), and no discarded candidate outscoring a
returned one; the raw request of `limit * 2` candidates from the scorer is
the `extract` call inside `rankPipeline`. -/
theorem search_ranking_spec :
    (∀ (scorer : String → String → ℚ) (items : List FAQItem) (query : String)
        (limit : Nat) (threshold : ℚ),
      searchContract
        ((items.filter (fun it => it.is_active)).map
          (fun it => (it, scorer query it.searchText)))
        limit threshold
        (FAQService.search scorer items query limit threshold)) ∧
    (∀ (scorer : String → String → ℚ) (documents : List Document)
        (query : String) (limit : Nat) (threshold : ℚ),
      searchContract
        ((documents.filter (fun d => d.is_active)).map
          (fun d => (d, scorer query d.searchText)))
        limit threshold
        (DocumentService.search scorer documents query limit threshold)) := by
  constructor
  · intro scorer items query limit threshold
    unfold FAQService.search
    by_cases hempty : (items.filter (fun it => it.is_active)).isEmpty
    · rw [if_pos hempty]
      rw [List.isEmpty_iff.mp hempty]
      exact ⟨by simp, by simp, by simp, by simp [sortByScoreDesc], by simp⟩
    · rw [if_neg hempty]
      have h := rankPipeline_contract scorer query
        ((items.filter (fun it => it.is_active)).map
          (fun it => (it, it.searchText))) limit threshold
      rw [List.map_map] at h
      exact h
  · intro scorer documents query limit threshold
    unfold DocumentService.search
    by_cases hempty : (documents.filter (fun d => d.is_active)).isEmpty
    · rw [if_pos hempty]
      rw [List.isEmpty_iff.mp hempty]
      exact ⟨by simp, by simp, by simp, by simp [sortByScoreDesc], by simp⟩
    · rw [if_neg hempty]
      have h := rankPipeline_contract scorer query
        ((documents.filter (fun d => d.is_active)).map
          (fun d => (d, d.searchText))) limit threshold
      rw [List.map_map] at h
      exact h

/-- An active FAQ item used as concrete search input. -/
def activeFaqItem : FAQItem :=
  { id := 1, category_id := 1, question := "q", answer := "a",
    keywords := none, links := none, views_count := 0, helpful_count := 0,
    not_helpful_count := 0, order := 0, is_active := true, is_pinned := false }

theorem search_eval_example :
    FAQService.search (fun _ _ => (80 : ℚ)) [activeFaqItem] "q" 5 50 =
      [(activeFaqItem, 80)] := by
  have h50 : ((50 : ℚ) ≤ 80) := by norm_num
  simp [FAQService.search, rankPipeline, extract, sortByScoreDesc,
    activeFaqItem, h50]

/-- Witness for `search_ranking_spec`: a constant-80 scorer over a one-item
catalog with threshold 50 returns one result, whose score clears the
threshold. -/
theorem search_ranking_spec_witness :
    (FAQService.search (fun _ _ => (80 : ℚ)) [activeFaqItem] "q" 5 50).length
      ≤ 5 ∧
    (50 : ℚ) ≤ ((activeFaqItem, (80 : ℚ)) : FAQItem × ℚ).2 :=
  ⟨(search_ranking_spec.1 (fun _ _ => 80) [activeFaqItem] "q" 5 50).1,
   (search_ranking_spec.1 (fun _ _ => 80) [activeFaqItem] "q" 5 50).2.1
     (activeFaqItem, 80)
     (by rw [search_eval_example]; exact List.mem_singleton_self _)⟩

end MospolytechBot
